import Mathlib

/-!
Verification development for the strix agent runtime.

Shallow embedding of the parts of the code base that the checked claims
talk about: the agent lifecycle state (src/strix/agents/state.py), the
state reconciler (src/strix/agents/reconciliation.py), the tool registry
(src/strix/tools/registry.py), the sandbox tool server
(src/strix/runtime/tool_server.py), the LLM circuit breaker
(src/strix/llm/circuit_breaker.py), the run plan
(src/strix/telemetry/run_plan.py), the progress store
(src/strix/tools/progress/progress_actions.py), the tracer event stream and
vulnerability reports (src/strix/telemetry/tracer.py,
src/strix/tools/reporting/reporting_actions.py) and the retry pipeline of
the LLM client (src/strix/llm/llm.py, src/strix/llm/request_queue.py).

Python strings are modelled as Lean Strings; `str.strip`, `str.lower`,
slicing and substring tests are re-implemented over the character list so
that every definition evaluates inside the kernel.  Wall-clock timestamps
(Python floats from time.time / datetime.now) are modelled as integers;
only their ordering and differences matter to the embedded code.
-/

namespace Strix

/-- Model of Python str.strip (drop leading and trailing whitespace). -/
def strStrip (s : String) : String :=
  String.mk (((s.data.dropWhile Char.isWhitespace).reverse.dropWhile Char.isWhitespace).reverse)

/-- Model of Python slicing s[:n] (take the first n characters). -/
def strTake (s : String) (n : Nat) : String :=
  String.mk (s.data.take n)

/-- Model of Python str.lower (character-wise lowercase). -/
def strToLower (s : String) : String :=
  String.mk (s.data.map Char.toLower)

/-- Boolean infix test on character lists (model of Python `a in b` on strings). -/
def isInfixL (needle : List Char) : List Char → Bool
  | [] => needle.isEmpty
  | c :: t => needle.isPrefixOf (c :: t) || isInfixL needle t

/-- Model of Python `needle in hay` for strings. -/
def subStr (needle hay : String) : Bool :=
  isInfixL needle.data hay.data

/-- Model of the Python format spec 04d as used in f-strings: zero-pad to width 4. -/
def padZeros4 (n : Nat) : String :=
  let s := toString n
  if s.length < 4 then String.mk (List.replicate (4 - s.length) (Char.ofNat 48)) ++ s else s

/-- A JSON-like value: model of the dynamically typed dict/list/str/int/bool
payloads the Python code passes around. -/
inductive JVal where
  | null
  | bool (b : Bool)
  | num (n : Int)
  | str (s : String)
  | arr (xs : List JVal)
  | obj (fields : List (String × JVal))

/-- Whether a JVal is a Python dict (isinstance(x, dict)). -/
def JVal.isObj : JVal → Bool
  | .obj _ => true
  | _ => false

/-- Whether a JVal is a Python list (isinstance(x, list)). -/
def JVal.isArr : JVal → Bool
  | .arr _ => true
  | _ => false

/-- Model of Python dict assignment d[k] = v: replace the binding if the key
exists, otherwise append it (dicts preserve insertion order). -/
def dictInsert {α : Type} (m : List (String × α)) (k : String) (v : α) : List (String × α) :=
  if m.any (fun p => p.1 == k) then
    m.map (fun p => if p.1 == k then (k, v) else p)
  else
    m ++ [(k, v)]

/-- Model of Python dict lookup d.get(k): first binding for the key. -/
def dictGet {α : Type} (m : List (String × α)) (k : String) : Option α :=
  (m.find? (fun p => p.1 == k)).map Prod.snd

/-- Membership of a key in a modelled dict (Python `k in d`). -/
def dictHasKey {α : Type} (m : List (String × α)) (k : String) : Bool :=
  m.any (fun p => p.1 == k)

/-! ## Agent lifecycle state — src/strix/agents/state.py -/

/-- AgentStatus enum from src/strix/agents/state.py. -/
inductive AgentStatus where
  | running
  | waiting_for_message
  | waiting_for_recovery
  | completed
  | failed
  | stopped
deriving DecidableEq, Repr

/-- One entry of AgentState.messages: a dict with "role" and "content" keys;
content is modelled after the str() conversion applied by the consumers. -/
structure AgentMessage where
  role : String
  content : String
deriving DecidableEq, Repr

/-- The fields of AgentState (src/strix/agents/state.py) that the embedded
operations and the reconciler read or write.  waiting_start_time and
last_updated are wall-clock stamps modelled as integers. -/
structure AgentState where
  status : AgentStatus := .running
  waiting_start_time : Option Int := none
  consecutive_empty_responses : Nat := 0
  failure_reason : Option String := none
  final_result : Option JVal := none
  task : String := ""
  iteration : Nat := 0
  max_iterations : Nat := 300
  max_wait_seconds : Nat := 300
  messages : List AgentMessage := []
  errors : List String := []
  last_updated : Int := 0

/-- AgentState.set_completed. -/
def AgentState.set_completed (st : AgentState) (final_result : Option JVal) (now : Int) :
    AgentState :=
  { st with
    status := .completed
    final_result := final_result
    waiting_start_time := none
    last_updated := now }

/-- AgentState.set_failed. -/
def AgentState.set_failed (st : AgentState) (reason : String) (now : Int) : AgentState :=
  { st with
    status := .failed
    failure_reason := some reason
    waiting_start_time := none
    last_updated := now }

/-- AgentState.request_stop. -/
def AgentState.request_stop (st : AgentState) (now : Int) : AgentState :=
  { st with
    status := .stopped
    waiting_start_time := none
    last_updated := now }

/-- AgentState.enter_waiting_state. -/
def AgentState.enter_waiting_state (st : AgentState) (llm_failed : Bool) (now : Int) :
    AgentState :=
  { st with
    status := if llm_failed then .waiting_for_recovery else .waiting_for_message
    waiting_start_time := some now
    last_updated := now }

/-- AgentState.resume_from_waiting. -/
def AgentState.resume_from_waiting (st : AgentState) (new_task : Option String) (now : Int) :
    AgentState :=
  { st with
    status := .running
    waiting_start_time := none
    failure_reason := none
    consecutive_empty_responses := 0
    task := match new_task with | some t => t | none => st.task
    last_updated := now }

/-- AgentState.is_waiting_for_input. -/
def AgentState.is_waiting_for_input (st : AgentState) : Bool :=
  st.status = AgentStatus.waiting_for_message ∨ st.status = AgentStatus.waiting_for_recovery

/-- The llm_failed compatibility property. -/
def AgentState.llm_failed (st : AgentState) : Bool :=
  st.status = AgentStatus.waiting_for_recovery

/-- One lifecycle operation on an agent state, with its call arguments. -/
inductive AgentOp where
  | enterWaiting (llm_failed : Bool) (now : Int)
  | resumeFromWaiting (new_task : Option String) (now : Int)
  | setCompleted (final_result : Option JVal) (now : Int)
  | setFailed (reason : String) (now : Int)
  | requestStop (now : Int)

/-- Apply one lifecycle operation. -/
def applyAgentOp (st : AgentState) : AgentOp → AgentState
  | .enterWaiting lf now => st.enter_waiting_state lf now
  | .resumeFromWaiting t now => st.resume_from_waiting t now
  | .setCompleted fr now => st.set_completed fr now
  | .setFailed r now => st.set_failed r now
  | .requestStop now => st.request_stop now

/-- Apply a sequence of lifecycle operations in order. -/
def applyAgentOps (st : AgentState) (ops : List AgentOp) : AgentState :=
  ops.foldl applyAgentOp st

/-- The documented equivalence: waiting_start_time is set iff the status is a
waiting variant. -/
def waitingInvariant (st : AgentState) : Prop :=
  st.waiting_start_time ≠ none ↔
    (st.status = AgentStatus.waiting_for_message ∨
     st.status = AgentStatus.waiting_for_recovery)

instance (st : AgentState) : Decidable (waitingInvariant st) := by
  unfold waitingInvariant
  infer_instance

/-! ## State reconciler — src/strix/agents/reconciliation.py -/

/-- ReconciliationIssueType enum. -/
inductive ReconciliationIssueType where
  | state_inconsistency
  | missing_data
  | duplicate_data
  | invalid_value
  | stale_data
  | loop_detected
  | rate_limit_detected
deriving DecidableEq, Repr

/-- ReconciliationIssue dataclass.  current_value / suggested_value hold
heterogeneous Python values, modelled as JVal. -/
structure ReconciliationIssue where
  issue_type : ReconciliationIssueType
  description : String
  field_path : String
  current_value : Option JVal := none
  suggested_value : Option JVal := none
  severity : String := "medium"
  auto_fixable : Bool := false

/-- Sub-check 1 of StateReconciler.check_for_issues: llm_failed but not in a
waiting state. -/
def issuesInconsistency (st : AgentState) : List ReconciliationIssue :=
  if st.llm_failed && !st.is_waiting_for_input then
    [{ issue_type := .state_inconsistency
       description := "LLM failed but agent not in waiting state"
       field_path := "llm_failed"
       current_value := some (.bool true)
       suggested_value := some (.bool false)
       severity := "high"
       auto_fixable := true }]
  else []

/-- Sub-check 2: iteration count exceeds max_iterations. -/
def issuesIteration (st : AgentState) : List ReconciliationIssue :=
  if st.iteration > st.max_iterations then
    [{ issue_type := .invalid_value
       description := "Iteration count exceeds max_iterations"
       field_path := "iteration"
       current_value := some (.num st.iteration)
       suggested_value := some (.num st.max_iterations)
       severity := "medium"
       auto_fixable := true }]
  else []

/-- The errors that count as rate-limit errors: "rate limit" or "429" occurs
in the lower-cased message. -/
def rateLimitErrors (st : AgentState) : List String :=
  st.errors.filter (fun e => subStr "rate limit" (strToLower e) || subStr "429" (strToLower e))

/-- Sub-check 3: three or more rate-limit errors recorded. -/
def issuesRateLimit (st : AgentState) : List ReconciliationIssue :=
  if (rateLimitErrors st).length ≥ 3 then
    [{ issue_type := .rate_limit_detected
       description := "Multiple rate limit errors detected"
       field_path := "errors"
       current_value := some (.num (rateLimitErrors st).length)
       severity := "high"
       auto_fixable := false }]
  else []

/-- The last six messages (Python messages[-6:]). -/
def lastSixMessages (st : AgentState) : List AgentMessage :=
  st.messages.drop (st.messages.length - 6)

/-- The assistant messages among the last six. -/
def assistantWindow (st : AgentState) : List AgentMessage :=
  (lastSixMessages st).filter (fun m => m.role == "assistant")

/-- Their first-100-character prefixes (str(content)[:100]). -/
def assistantContents (st : AgentState) : List String :=
  (assistantWindow st).map (fun m => strTake m.content 100)

/-- Sub-check 4: loop detection.  Requires at least six messages, at least
three assistant messages among the last six, and — as the code literally
checks via len(set(contents)) == 1 — that ALL assistant messages in the
window share one first-100-character prefix. -/
def issuesLoop (st : AgentState) : List ReconciliationIssue :=
  if st.messages.length ≥ 6 then
    if (assistantWindow st).length ≥ 3 then
      if (assistantContents st).eraseDups.length == 1 then
        [{ issue_type := .loop_detected
           description := "Agent appears to be in a loop (repeated identical responses)"
           field_path := "messages"
           current_value := some (.str ((assistantContents st).headD ""))
           severity := "critical"
           auto_fixable := false }]
      else []
    else []
  else []

/-- Sub-check 5: stale waiting state (older than 300 seconds, not an LLM
recovery wait). -/
def issuesStale (st : AgentState) (now : Int) : List ReconciliationIssue :=
  if st.is_waiting_for_input then
    match st.waiting_start_time with
    | some t =>
        if now - t > 300 && !st.llm_failed then
          [{ issue_type := .stale_data
             description := "Agent has been waiting for input too long"
             field_path := "waiting_for_input"
             current_value := some (.bool true)
             severity := "medium"
             auto_fixable := false }]
        else []
    | none => []
  else []

/-- StateReconciler.check_for_issues: the five checks, appended in program
order. -/
def check_for_issues (st : AgentState) (now : Int) : List ReconciliationIssue :=
  issuesInconsistency st ++ issuesIteration st ++ issuesRateLimit st ++
    issuesLoop st ++ issuesStale st now

/-- Whether check_for_issues reports a loop_detected issue. -/
def hasLoopIssue (st : AgentState) (now : Int) : Bool :=
  (check_for_issues st now).any (fun i => i.issue_type = ReconciliationIssueType.loop_detected)

/-! ## Tool registry — src/strix/tools/registry.py -/

/-- One registry entry: the fields of the tools list that
get_parallelization_strategy reads (name and module tag). -/
structure RegTool where
  name : String
  module : String
deriving DecidableEq, Repr

/-- SEQUENTIAL_TOOLS from src/strix/tools/registry.py. -/
def SEQUENTIAL_TOOLS : List String := ["terminal", "browser", "file_edit"]

/-- The module lookup inside get_parallelization_strategy: the module of the
first registered tool with the given name, defaulting to "unknown". -/
def lookupToolModule (tools : List RegTool) (name : String) : String :=
  match tools.find? (fun t => t.name == name) with
  | some t => t.module
  | none => "unknown"

/-- The placement test of get_parallelization_strategy: sequential iff the
tool's module or the tool name itself is in SEQUENTIAL_TOOLS. -/
def isSequentialName (tools : List RegTool) (name : String) : Bool :=
  SEQUENTIAL_TOOLS.contains (lookupToolModule tools name) || SEQUENTIAL_TOOLS.contains name

/-- The return value of get_parallelization_strategy. -/
structure ParallelizationStrategy where
  parallel : List String
  sequential : List String
deriving DecidableEq, Repr

/-- get_parallelization_strategy: walk the names in order, appending each to
the sequential or the parallel bucket. -/
def get_parallelization_strategy (tools : List RegTool) :
    List String → ParallelizationStrategy
  | [] => { parallel := [], sequential := [] }
  | n :: rest =>
      let r := get_parallelization_strategy tools rest
      if isSequentialName tools n then
        { parallel := r.parallel, sequential := n :: r.sequential }
      else
        { parallel := n :: r.parallel, sequential := r.sequential }

/-! ## Sandbox tool server — src/strix/runtime/tool_server.py -/

/-- Parsed Authorization header as handed to verify_token
(fastapi HTTPAuthorizationCredentials). -/
structure Credentials where
  scheme : String
  credentials : String
deriving DecidableEq, Repr

/-- An HTTPException as raised by verify_token. -/
structure HTTPErr where
  status_code : Nat
  detail : String
deriving DecidableEq, Repr

/-- ToolExecutionRequest body of POST /execute. -/
structure ToolExecutionRequest where
  agent_id : String
  tool_name : String
  kwargs : List (String × JVal)

/-- The server's per-agent dispatch state: for each registered agent id, the
queue of requests handed to its worker (newest last). -/
structure ToolServerState where
  agents : List (String × List ToolExecutionRequest)

/-- verify_token: 401 unless the scheme is Bearer and the token equals the
per-run secret. -/
def verify_token (expected : String) (cred : Credentials) : Except HTTPErr String :=
  if cred.scheme ≠ "Bearer" then
    .error { status_code := 401
             detail := "Invalid authentication scheme. Bearer token required." }
  else if cred.credentials ≠ expected then
    .error { status_code := 401, detail := "Invalid authentication token" }
  else
    .ok cred.credentials

/-- ensure_agent_process: create an empty queue for the agent when absent. -/
def ensure_agent_process (st : ToolServerState) (agent_id : String) : ToolServerState :=
  if dictHasKey st.agents agent_id then st
  else { agents := st.agents ++ [(agent_id, [])] }

/-- Enqueue one request to the agent's worker queue. -/
def enqueueRequest (st : ToolServerState) (req : ToolExecutionRequest) : ToolServerState :=
  { agents := st.agents.map (fun p =>
      if p.1 == req.agent_id then (p.1, p.2 ++ [req]) else p) }

/-- POST /execute: verify the token, then ensure a worker and hand the request
to it.  On an authentication failure the handler raises before touching any
worker state. -/
def execute_tool (expected : String) (cred : Credentials) (req : ToolExecutionRequest)
    (st : ToolServerState) : Except HTTPErr Unit × ToolServerState :=
  match verify_token expected cred with
  | .error e => (.error e, st)
  | .ok _ =>
      let st1 := ensure_agent_process st req.agent_id
      (.ok (), enqueueRequest st1 req)

/-- POST /register_agent: verify the token, then ensure a worker process. -/
def register_agent (expected : String) (cred : Credentials) (agent_id : String)
    (st : ToolServerState) : Except HTTPErr (String × String) × ToolServerState :=
  match verify_token expected cred with
  | .error e => (.error e, st)
  | .ok _ => (.ok ("registered", agent_id), ensure_agent_process st agent_id)

/-- All requests currently queued for any worker. -/
def allQueued (st : ToolServerState) : List ToolExecutionRequest :=
  st.agents.flatMap Prod.snd

/-! ## Circuit breaker — src/strix/llm/circuit_breaker.py -/

/-- CircuitState enum.  The Python name "open" is a Lean keyword, hence
"opened" here. -/
inductive CircuitState where
  | closed
  | opened
  | half_open
deriving DecidableEq, Repr

/-- CircuitBreaker: configuration plus mutable fields.  last_failure_time is
a wall-clock stamp (time.time()), modelled as an integer. -/
structure CircuitBreaker where
  failure_threshold : Nat := 5
  recovery_timeout : Int := 60
  half_open_max_calls : Nat := 1
  state : CircuitState := .closed
  failure_count : Nat := 0
  last_failure_time : Option Int := none
  half_open_calls : Nat := 0
  total_calls : Nat := 0
  total_failures : Nat := 0
  total_circuit_breaks : Nat := 0
deriving DecidableEq, Repr

/-- CircuitBreaker._should_attempt_recovery at wall-clock time now. -/
def CircuitBreaker.should_attempt_recovery (cb : CircuitBreaker) (now : Int) : Bool :=
  match cb.last_failure_time with
  | none => true
  | some t => now - t ≥ cb.recovery_timeout

/-- The CircuitBreaker.state property: reading it moves an open breaker to
half-open once the recovery timeout has elapsed (resetting the probe
counter).  Returns the observed state and the updated breaker. -/
def CircuitBreaker.stateProp (cb : CircuitBreaker) (now : Int) :
    CircuitState × CircuitBreaker :=
  if cb.state = CircuitState.opened then
    if cb.should_attempt_recovery now then
      (CircuitState.half_open,
       { cb with state := .half_open, half_open_calls := 0 })
    else (cb.state, cb)
  else (cb.state, cb)

/-- CircuitBreaker.can_execute. -/
def CircuitBreaker.can_execute (cb : CircuitBreaker) (now : Int) :
    Bool × CircuitBreaker :=
  let (s, cb1) := cb.stateProp now
  match s with
  | .closed => (true, cb1)
  | .half_open => (cb1.half_open_calls < cb1.half_open_max_calls, cb1)
  | .opened => (false, cb1)

/-- CircuitBreaker.record_success. -/
def CircuitBreaker.record_success (cb : CircuitBreaker) : CircuitBreaker :=
  let cb := { cb with total_calls := cb.total_calls + 1 }
  match cb.state with
  | .half_open =>
      { cb with state := .closed, failure_count := 0, half_open_calls := 0 }
  | .closed => { cb with failure_count := 0 }
  | .opened => cb

/-- CircuitBreaker.record_failure at wall-clock time now. -/
def CircuitBreaker.record_failure (cb : CircuitBreaker) (now : Int) : CircuitBreaker :=
  let cb := { cb with
    total_calls := cb.total_calls + 1
    total_failures := cb.total_failures + 1
    failure_count := cb.failure_count + 1
    last_failure_time := some now }
  match cb.state with
  | .half_open =>
      { cb with state := .opened, total_circuit_breaks := cb.total_circuit_breaks + 1 }
  | .closed =>
      if cb.failure_count ≥ cb.failure_threshold then
        { cb with state := .opened, total_circuit_breaks := cb.total_circuit_breaks + 1 }
      else cb
  | .opened => cb

/-- CircuitBreaker.raise_if_open: returns whether the call is admitted
(no exception raised) and the updated breaker; an admitted half-open call
increments the probe counter. -/
def CircuitBreaker.raise_if_open (cb : CircuitBreaker) (now : Int) :
    Bool × CircuitBreaker :=
  let (ok, cb1) := cb.can_execute now
  if ok then
    if cb1.state = CircuitState.half_open then
      (true, { cb1 with half_open_calls := cb1.half_open_calls + 1 })
    else (true, cb1)
  else (false, cb1)

/-- Iterate raise_if_open n times at one instant; count how many probes are
admitted. -/
def admitProbes (cb : CircuitBreaker) (now : Int) : Nat → Nat × CircuitBreaker
  | 0 => (0, cb)
  | n + 1 =>
      let (ok, cb1) := cb.raise_if_open now
      let (k, cb2) := admitProbes cb1 now n
      ((if ok then 1 else 0) + k, cb2)

/-! ## Run plan — src/strix/telemetry/run_plan.py -/

/-- TaskStatus enum. -/
inductive TaskStatus where
  | pending
  | in_progress
  | completed
  | failed
  | skipped
  | blocked
deriving DecidableEq, Repr

/-- PhaseStatus enum. -/
inductive PhaseStatus where
  | pending
  | in_progress
  | completed
  | partially_completed
  | failed
deriving DecidableEq, Repr

/-- PlanTask dataclass.  Timestamp strings are carried opaquely. -/
structure PlanTask where
  task_id : String
  title : String
  description : String := ""
  status : TaskStatus := .pending
  phase_id : Option String := none
  depends_on : List String := []
  created_at : String := ""
  started_at : Option String := none
  completed_at : Option String := none
  result : Option JVal := none
  error : Option String := none
  iteration_started : Option Nat := none
  iteration_completed : Option Nat := none

/-- PlanPhase dataclass. -/
structure PlanPhase where
  phase_id : String
  title : String
  description : String := ""
  order : Nat := 0
  status : PhaseStatus := .pending
  created_at : String := ""
  started_at : Option String := none
  completed_at : Option String := none

/-- RunPlan dataclass (the fields the embedded operations touch). -/
structure RunPlan where
  phases : List PlanPhase := []
  tasks : List PlanTask := []
  current_task_id : Option String := none
  current_phase_id : Option String := none
  updated_at : String := ""

/-- RunPlan.get_task: first task with the id. -/
def RunPlan.get_task (plan : RunPlan) (task_id : String) : Option PlanTask :=
  plan.tasks.find? (fun t => t.task_id == task_id)

/-- RunPlan.get_phase. -/
def RunPlan.get_phase (plan : RunPlan) (phase_id : String) : Option PlanPhase :=
  plan.phases.find? (fun p => p.phase_id == phase_id)

/-- Update the first task with the given id (the Python code mutates the
object returned by get_task). -/
def updateFirstTask (f : PlanTask → PlanTask) (task_id : String) :
    List PlanTask → List PlanTask
  | [] => []
  | t :: ts =>
      if t.task_id == task_id then f t :: ts
      else t :: updateFirstTask f task_id ts

/-- Update the first phase with the given id. -/
def updateFirstPhase (f : PlanPhase → PlanPhase) (phase_id : String) :
    List PlanPhase → List PlanPhase
  | [] => []
  | p :: ps =>
      if p.phase_id == phase_id then f p :: ps
      else p :: updateFirstPhase f phase_id ps

/-- RunPlan.add_task: id defaults to task_{len+1}. -/
def RunPlan.add_task (plan : RunPlan) (title : String) (description : String)
    (phase_id : Option String) (depends_on : List String)
    (task_id : Option String) (now : String) : RunPlan :=
  let tid := match task_id with
    | some i => i
    | none => "task_" ++ toString (plan.tasks.length + 1)
  let task : PlanTask :=
    { task_id := tid, title := title, description := description
      phase_id := phase_id, depends_on := depends_on, created_at := now }
  { plan with tasks := plan.tasks ++ [task], updated_at := now }

/-- RunPlan._update_phase_status: derive the phase status from its tasks. -/
def RunPlan.update_phase_status (plan : RunPlan) (phase_id : Option String)
    (now : String) : RunPlan :=
  match phase_id with
  | none => plan
  | some pid =>
      match plan.get_phase pid with
      | none => plan
      | some _ =>
          let tasks := plan.tasks.filter (fun t => t.phase_id == some pid)
          if tasks.isEmpty then plan
          else
            let all_completed := tasks.all (fun t => t.status = TaskStatus.completed)
            let any_failed := tasks.any (fun t => t.status = TaskStatus.failed)
            let any_in_progress := tasks.any (fun t => t.status = TaskStatus.in_progress)
            let all_done := tasks.all (fun t =>
              t.status = TaskStatus.completed ∨ t.status = TaskStatus.failed ∨
                t.status = TaskStatus.skipped)
            if all_completed then
              let ps := updateFirstPhase (fun p => { p with status := .completed, completed_at := some now }) pid plan.phases
              { plan with phases := ps }
            else if any_failed && all_done then
              let ps := updateFirstPhase (fun p => { p with status := .partially_completed, completed_at := some now }) pid plan.phases
              { plan with phases := ps }
            else if any_in_progress then
              let ps := updateFirstPhase (fun p => { p with status := .in_progress }) pid plan.phases
              { plan with phases := ps }
            else plan

/-- RunPlan.start_task: marks the task in progress.  Note: the code performs
no dependency check before the transition. -/
def RunPlan.start_task (plan : RunPlan) (task_id : String)
    (iteration : Option Nat) (now : String) : RunPlan :=
  match plan.get_task task_id with
  | none => plan
  | some task =>
      let ts := updateFirstTask (fun t => { t with status := .in_progress, started_at := some now, iteration_started := iteration }) task_id plan.tasks
      let plan := { plan with tasks := ts, current_task_id := some task_id }
      let plan :=
        match task.phase_id with
        | none => plan
        | some pid =>
            match plan.get_phase pid with
            | some phase =>
                if phase.status = PhaseStatus.pending then
                  let ps := updateFirstPhase (fun p => { p with status := .in_progress, started_at := some now }) pid plan.phases
                  { plan with phases := ps, current_phase_id := some pid }
                else plan
            | none => plan
      { plan with updated_at := now }

/-- RunPlan.complete_task. -/
def RunPlan.complete_task (plan : RunPlan) (task_id : String)
    (result : Option JVal) (iteration : Option Nat)
    (now : String) : RunPlan :=
  match plan.get_task task_id with
  | none => plan
  | some task =>
      let ts := updateFirstTask (fun t => { t with status := .completed, completed_at := some now, result := result, iteration_completed := iteration }) task_id plan.tasks
      let cur := if plan.current_task_id = some task_id then none else plan.current_task_id
      let plan := { plan with tasks := ts, current_task_id := cur }
      let plan := plan.update_phase_status task.phase_id now
      { plan with updated_at := now }

/-- RunPlan.fail_task. -/
def RunPlan.fail_task (plan : RunPlan) (task_id : String) (error : String)
    (iteration : Option Nat) (now : String) : RunPlan :=
  match plan.get_task task_id with
  | none => plan
  | some task =>
      let ts := updateFirstTask (fun t => { t with status := .failed, completed_at := some now, error := some error, iteration_completed := iteration }) task_id plan.tasks
      let cur := if plan.current_task_id = some task_id then none else plan.current_task_id
      let plan := { plan with tasks := ts, current_task_id := cur }
      let plan := plan.update_phase_status task.phase_id now
      { plan with updated_at := now }

/-- RunPlan.skip_task. -/
def RunPlan.skip_task (plan : RunPlan) (task_id : String) (reason : String)
    (now : String) : RunPlan :=
  match plan.get_task task_id with
  | none => plan
  | some task =>
      let ts := updateFirstTask (fun t => { t with status := .skipped, completed_at := some now, error := some (if reason = "" then "Skipped" else reason) }) task_id plan.tasks
      let plan := { plan with tasks := ts }
      let plan := plan.update_phase_status task.phase_id now
      { plan with updated_at := now }

/-- The set of completed task ids, as computed at the top of get_next_task. -/
def completedIds (plan : RunPlan) : List String :=
  (plan.tasks.filter (fun t => t.status = TaskStatus.completed)).map (fun t => t.task_id)

/-- RunPlan.get_next_task: the first pending task all of whose dependencies
are in the completed set.  Note: a skipped dependency does not count. -/
def RunPlan.get_next_task (plan : RunPlan) : Option PlanTask :=
  plan.tasks.find? (fun t =>
    t.status = TaskStatus.pending &&
      t.depends_on.all (fun dep => (completedIds plan).contains dep))

/-- The invariant claimed for plans: every in-progress or completed task has
all of its dependencies completed or skipped. -/
def planDependencyInvariant (plan : RunPlan) : Prop :=
  ∀ t ∈ plan.tasks,
    (t.status = TaskStatus.in_progress ∨ t.status = TaskStatus.completed) →
      ∀ dep ∈ t.depends_on, ∃ d ∈ plan.tasks, d.task_id = dep ∧
        (d.status = TaskStatus.completed ∨ d.status = TaskStatus.skipped)

/-! ## Progress store — src/strix/tools/progress/progress_actions.py -/

/-- One value of the progress cache: {"data": ..., "created_at": ...,
"updated_at": ...}. -/
structure ProgressEntry where
  data : JVal
  created_at : String
  updated_at : String

/-- The module state: the in-memory _progress_cache, whether a run directory
(and hence a progress file path) is available, and the parsed content of the
file on disk when it exists. -/
structure ProgressState where
  cache : List (String × ProgressEntry) := []
  hasPath : Bool := true
  fileContent : Option (List (String × ProgressEntry)) := none

/-- _load_progress_from_disk: replace the cache with the parsed file when the
path resolves and the file exists. -/
def load_progress_from_disk (st : ProgressState) : ProgressState :=
  if st.hasPath then
    match st.fileContent with
    | some d => { st with cache := d }
    | none => st
  else st

/-- _save_progress_to_disk: atomically replace the file with the cache;
returns False when no path is available. -/
def save_progress_to_disk (st : ProgressState) : Bool × ProgressState :=
  if st.hasPath then (true, { st with fileContent := some st.cache })
  else (false, st)

/-- Result dict of save_progress. -/
structure SaveResult where
  success : Bool
  error : Option String := none
  key : Option String := none
  persisted_to_disk : Option Bool := none

/-- Result dict of load_progress. -/
structure LoadResult where
  success : Bool
  error : Option String := none
  key : Option String := none
  data : Option JVal := none
  created_at : Option String := none
  updated_at : Option String := none

/-- save_progress(key, data, append).  now is the timestamp string. -/
def save_progress (st : ProgressState) (key : String) (data : JVal)
    (append : Bool) (now : String) : SaveResult × ProgressState :=
  if strStrip key = "" then
    ({ success := false, error := some "Key cannot be empty" }, st)
  else if !data.isObj then
    ({ success := false, error := some "Data must be a dictionary" }, st)
  else
    let st := if st.cache.isEmpty then load_progress_from_disk st else st
    let k := strStrip key
    let st :=
      if append && dictHasKey st.cache k then
        match dictGet st.cache k with
        | some entry =>
            match entry.data, dictGet (match data with | .obj fs => fs | _ => []) "items" with
            | .arr existing, some (.arr items) =>
                let c := dictInsert st.cache k { entry with data := .arr (existing ++ items), updated_at := now }
                { st with cache := c }
            | _, _ =>
                let c := dictInsert st.cache k { data := data, created_at := entry.created_at, updated_at := now }
                { st with cache := c }
        | none => st
      else
        let c := dictInsert st.cache k { data := data, created_at := now, updated_at := now }
        { st with cache := c }
    let (persisted, st) := save_progress_to_disk st
    ({ success := true, key := some k, persisted_to_disk := some persisted }, st)

/-- load_progress(key). -/
def load_progress (st : ProgressState) (key : String) : LoadResult × ProgressState :=
  if strStrip key = "" then
    ({ success := false, error := some "Key cannot be empty" }, st)
  else
    let st := if st.cache.isEmpty then load_progress_from_disk st else st
    let k := strStrip key
    match dictGet st.cache k with
    | none =>
        ({ success := false, error := some ("Progress key not found: " ++ k) }, st)
    | some entry =>
        ({ success := true, key := some k, data := some entry.data
           created_at := some entry.created_at, updated_at := some entry.updated_at }, st)

/-! ## Tracer event stream — src/strix/telemetry/tracer.py -/

/-- EventType enum. -/
inductive EventType where
  | agent_created
  | agent_status_changed
  | agent_iteration
  | agent_state_transition
  | tool_start
  | tool_complete
  | tool_error
  | llm_request
  | llm_response
  | llm_error
  | agent_message_sent
  | agent_message_received
  | vulnerability_found
  | scan_start
  | scan_complete
deriving DecidableEq, Repr

/-- The string value of an EventType. -/
def EventType.value : EventType → String
  | .agent_created => "agent_created"
  | .agent_status_changed => "agent_status_changed"
  | .agent_iteration => "agent_iteration"
  | .agent_state_transition => "agent_state_transition"
  | .tool_start => "tool_start"
  | .tool_complete => "tool_complete"
  | .tool_error => "tool_error"
  | .llm_request => "llm_request"
  | .llm_response => "llm_response"
  | .llm_error => "llm_error"
  | .agent_message_sent => "agent_message_sent"
  | .agent_message_received => "agent_message_received"
  | .vulnerability_found => "vulnerability_found"
  | .scan_start => "scan_start"
  | .scan_complete => "scan_complete"

/-- TracerEvent dataclass. -/
structure TracerEvent where
  event_type : EventType
  timestamp : String
  agent_id : Option String := none
  data : List (String × JVal) := []

/-- TracerEvent.to_dict: the JSON object written as one line of
events.jsonl, as an ordered field list. -/
def TracerEvent.to_dict (e : TracerEvent) : List (String × JVal) :=
  [("event_type", .str e.event_type.value),
   ("timestamp", .str e.timestamp),
   ("agent_id", match e.agent_id with | some a => .str a | none => .null),
   ("data", .obj e.data)]

/-- The tracer state relevant to event emission: the in-memory event list and
the JSON lines of events.jsonl. -/
structure TracerEmitState where
  events : List TracerEvent := []
  diskLines : List (List (String × JVal)) := []

/-- Tracer._emit_event: append to the in-memory log, then attempt the
append to events.jsonl.  A failed file append (OSError/IOError) is logged
and swallowed; writeOk records whether the append succeeded. -/
def emit_event (st : TracerEmitState) (e : TracerEvent) (writeOk : Bool) :
    TracerEmitState :=
  let st := { st with events := st.events ++ [e] }
  if writeOk then { st with diskLines := st.diskLines ++ [e.to_dict] } else st

/-- Emit a sequence of events, each with its file-append success flag. -/
def emitAll (st : TracerEmitState) (es : List (TracerEvent × Bool)) : TracerEmitState :=
  es.foldl (fun s p => emit_event s p.1 p.2) st

/-! ## Vulnerability reports — src/strix/telemetry/tracer.py and
src/strix/tools/reporting/reporting_actions.py -/

/-- One vulnerability report held by the tracer. -/
structure VulnReport where
  id : String
  title : String
  content : String
  severity : String
  timestamp : String
deriving DecidableEq, Repr

/-- A file-system operation under the run directory, as performed by the
reporting code.  writeFileW is a plain open(.., "w") write; appendFileA a
plain open(.., "a") append.  tempWriteFsyncRename is the write-temp, fsync,
rename pattern; the constructor exists so the operation trace can express
which pattern a code path used (this code path never produces it). -/
inductive FsOp where
  | writeFileW (path content : String)
  | appendFileA (path content : String)
  | tempWriteFsyncRename (path content : String)
deriving DecidableEq, Repr

/-- Whether an operation is an atomic temp-write/fsync/rename. -/
def FsOp.isAtomic : FsOp → Bool
  | .tempWriteFsyncRename _ _ => true
  | _ => false

/-- State touched by create_vulnerability_report: the tracer's report list
and event stream, the files under the run directory, and the trace of file
operations performed. -/
structure ReportingState where
  vulnerability_reports : List VulnReport := []
  events : List TracerEvent := []
  files : List (String × String) := []
  ops : List FsOp := []

/-- Tracer.add_vulnerability_report: assign id vuln-<zero-padded n+1>, append
the normalized report, invoke the UI callback if registered.  It writes no
file and calls _emit_event on nothing. -/
def add_vulnerability_report (st : ReportingState) (title content severity : String)
    (now : String) : String × ReportingState :=
  let report_id := "vuln-" ++ padZeros4 (st.vulnerability_reports.length + 1)
  let report : VulnReport :=
    { id := report_id, title := strStrip title, content := strStrip content
      severity := strStrip (strToLower severity), timestamp := now }
  (report_id, { st with vulnerability_reports := st.vulnerability_reports ++ [report] })

/-- The markdown artifact written for one report. -/
def vulnMarkdown (report_id title content severity timestamp : String) : String :=
  "# " ++ title ++ "\n\n" ++
  "**ID:** " ++ report_id ++ "\n" ++
  "**Severity:** " ++ String.mk (severity.data.map Char.toUpper) ++ "\n" ++
  "**Found:** " ++ timestamp ++ "\n\n" ++
  "## Description\n\n" ++ content ++ "\n"

/-- Minimal-quoting CSV field (csv.QUOTE_MINIMAL): quote when the field
contains a separator, a quote or a line break, doubling embedded quotes. -/
def csvField (s : String) : String :=
  if s.data.any (fun c => c = Char.ofNat 44 || c = Char.ofNat 34 || c = Char.ofNat 10 || c = Char.ofNat 13) then
    "\"" ++ String.mk (s.data.flatMap (fun c => if c = Char.ofNat 34 then [c, c] else [c])) ++ "\""
  else s

/-- One CSV row (csv module line terminator is CRLF). -/
def csvRow (fields : List String) : String :=
  String.intercalate "," (fields.map csvField) ++ "\r\n"

/-- The header row of vulnerabilities.csv. -/
def csvHeader : String := csvRow ["id", "title", "severity", "timestamp", "file"]

/-- Read a file of the modelled run directory. -/
def fileLookup (files : List (String × String)) (path : String) : Option String :=
  dictGet files path

/-- _save_vulnerability_to_disk: plain write of the markdown artifact and
plain append of one row to vulnerabilities.csv (header first when the file
is new).  No temp file, no fsync, no rename. -/
def save_vulnerability_to_disk (st : ReportingState)
    (report_id title content severity timestamp : String) : Bool × ReportingState :=
  let mdPath := "vulnerabilities/" ++ report_id ++ ".md"
  let md := vulnMarkdown report_id title content severity timestamp
  let st := { st with
    files := dictInsert st.files mdPath md
    ops := st.ops ++ [FsOp.writeFileW mdPath md] }
  let csvPath := "vulnerabilities.csv"
  let write_header := !(dictHasKey st.files csvPath)
  let row := csvRow [report_id, title, String.mk (severity.data.map Char.toUpper),
    timestamp, "vulnerabilities/" ++ report_id ++ ".md"]
  let chunk := (if write_header then csvHeader else "") ++ row
  let prev := (fileLookup st.files csvPath).getD ""
  let st := { st with
    files := dictInsert st.files csvPath (prev ++ chunk)
    ops := st.ops ++ [FsOp.appendFileA csvPath chunk] }
  (true, st)

/-- Result dict of create_vulnerability_report. -/
structure CreateReportResult where
  success : Bool
  message : String := ""
  report_id : Option String := none
  severity : Option String := none
  persisted_to_disk : Option Bool := none
  file_path : Option String := none

/-- The accepted severities. -/
def validSeverities : List String := ["critical", "high", "medium", "low", "info"]

/-- create_vulnerability_report (tracer available): validate, add the report
to the tracer, then immediately save it to disk. -/
def create_vulnerability_report (st : ReportingState) (title content severity : String)
    (now : String) : CreateReportResult × ReportingState :=
  if strStrip title = "" then
    ({ success := false, message := "Title cannot be empty" }, st)
  else if strStrip content = "" then
    ({ success := false, message := "Content cannot be empty" }, st)
  else if strStrip severity = "" then
    ({ success := false, message := "Severity cannot be empty" }, st)
  else if !(validSeverities.contains (strToLower severity)) then
    ({ success := false, message := "Invalid severity" }, st)
  else
    let (report_id, st) := add_vulnerability_report st title content severity now
    let (disk_saved, st) := save_vulnerability_to_disk st report_id
      (strStrip title) (strStrip content) (strStrip (strToLower severity)) now
    ({ success := true
       message := "Vulnerability report created successfully"
       report_id := some report_id
       severity := some (strToLower severity)
       persisted_to_disk := some disk_saved
       file_path := if disk_saved then some ("vulnerabilities/" ++ report_id ++ ".md") else none },
     st)

/-! ## LLM retry pipeline — src/strix/llm/llm.py and
src/strix/llm/request_queue.py

LLM.generate retries transient errors MAX_RETRIES = 3 times with a delay
starting at INITIAL_RETRY_DELAY = 2 s and doubling up to MAX_RETRY_DELAY =
16 s, recording every surfaced failure with the circuit breaker.  Each
attempt, however, goes through LLMRequestQueue._reliable_request, which is
itself wrapped in tenacity retry(stop_after_attempt(7),
wait_exponential(multiplier=6, min=12, max=150),
retry_if_exception(should_retry_exception), reraise=True) — so one surfaced
failure stands for up to seven underlying requests whose waits never touch
the breaker. -/

/-- Error classes raised by the underlying client, as distinguished by
llm.py's except clauses. -/
inductive ErrKind where
  | rateLimit
  | timeoutErr
  | serviceUnavailable
  | internalServer
  | apiConnection
  | authentication
  | notFound
  | contextWindow
  | contentPolicy
  | budgetExceeded
  | unsupportedParams
  | invalidRequest
  | badRequest
  | unknownErr
deriving DecidableEq, Repr

/-- An exception raised by a completion call: its class and, when present,
an HTTP status code. -/
structure LLMErr where
  kind : ErrKind
  status_code : Option Nat := none
deriving DecidableEq, Repr

/-- RETRYABLE_ERRORS in llm.py (RateLimitError, Timeout,
ServiceUnavailableError, InternalServerError, APIConnectionError). -/
def retryableByGenerate (e : LLMErr) : Bool :=
  match e.kind with
  | .rateLimit | .timeoutErr | .serviceUnavailable | .internalServer | .apiConnection => true
  | _ => false

/-- The non-retryable except clause in llm.py (authentication, not-found,
context window, content policy, budget, unsupported params, invalid
request, bad request): fail immediately without touching the breaker. -/
def nonRetryableByGenerate (e : LLMErr) : Bool :=
  match e.kind with
  | .authentication | .notFound | .contextWindow | .contentPolicy
  | .budgetExceeded | .unsupportedParams | .invalidRequest | .badRequest => true
  | _ => false

/-- litellm._should_retry on an HTTP status code: retry on 408, 409, 429 and
5xx (the OpenAI retry policy litellm mirrors). -/
def litellmShouldRetry (code : Nat) : Bool :=
  code == 408 || code == 409 || code == 429 || decide (500 ≤ code)

/-- request_queue.should_retry_exception: consult the status code when the
exception carries one, otherwise retry. -/
def should_retry_exception (e : LLMErr) : Bool :=
  match e.status_code with
  | some code => litellmShouldRetry code
  | none => true

/-- The outcome of one underlying completion call. -/
inductive Outcome where
  | ok
  | err (e : LLMErr)

/-- tenacity wait_exponential(multiplier=6, min=12, max=150) after the
n-th failed attempt (n counted from 1): clamp 6 * 2^(n-1) into [12, 150]. -/
def tenacityWait (attempt : Nat) : Int :=
  max 12 (min (6 * 2 ^ (attempt - 1)) 150)

/-- Trace of one _reliable_request call: its result, the number of
underlying completion calls consumed, the tenacity waits slept between
them, and the rest of the outcome stream. -/
structure QueueTrace where
  result : Except LLMErr Unit
  requests : Nat
  waits : List Int
  rest : List Outcome

/-- The tenacity-wrapped _reliable_request, consuming a stream of outcomes;
attempt is the 1-based attempt number, stop_after_attempt(7) stops after
the seventh.  An exhausted stream stands for a crash of the stub and is
reported as an unknown error. -/
def reliableRequestAux : List Outcome → Nat → QueueTrace
  | [], _ =>
      { result := .error { kind := .unknownErr }, requests := 0, waits := [], rest := [] }
  | o :: rest, attempt =>
      match o with
      | .ok => { result := .ok (), requests := 1, waits := [], rest := rest }
      | .err e =>
          if should_retry_exception e ∧ attempt < 7 then
            let t := reliableRequestAux rest (attempt + 1)
            { result := t.result, requests := t.requests + 1
              waits := tenacityWait attempt :: t.waits, rest := t.rest }
          else
            { result := .error e, requests := 1, waits := [], rest := rest }

/-- LLMRequestQueue._reliable_request. -/
def reliable_request (os : List Outcome) : QueueTrace :=
  reliableRequestAux os 1

/-- llm.py retry configuration. -/
def MAX_RETRIES : Nat := 3

/-- Initial retry delay in seconds. -/
def INITIAL_RETRY_DELAY : Int := 2

/-- Retry delay ceiling in seconds. -/
def MAX_RETRY_DELAY : Int := 16

/-- Trace of one LLM.generate call: result, total number of underlying
completion calls, the waits slept inside the request queue, the backoff
delays slept by the generate loop, and how often the circuit breaker
recorded a failure or a success. -/
structure GenTrace where
  result : Except LLMErr Unit
  requests : Nat
  innerWaits : List Int
  outerDelays : List Int
  breakerFailures : Nat
  breakerSuccesses : Nat

/-- The retry loop of LLM.generate: retriesLeft counts the remaining
retries (MAX_RETRIES at the top), retry_delay the current backoff.  Each
iteration performs one _reliable_request; a retryable surfaced error is
recorded with the breaker and, while retries remain, slept out and
retried with the delay doubled up to MAX_RETRY_DELAY; a non-retryable
error fails immediately without touching the breaker; any other error is
recorded with the breaker and fails immediately. -/
def generateAux (os : List Outcome) (retriesLeft : Nat) (retry_delay : Int) : GenTrace :=
  let q := reliable_request os
  match q.result with
  | .ok _ =>
      { result := .ok (), requests := q.requests, innerWaits := q.waits
        outerDelays := [], breakerFailures := 0, breakerSuccesses := 1 }
  | .error e =>
      if retryableByGenerate e then
        match retriesLeft with
        | r + 1 =>
            let t := generateAux q.rest r (min (retry_delay * 2) MAX_RETRY_DELAY)
            { result := t.result, requests := q.requests + t.requests
              innerWaits := q.waits ++ t.innerWaits
              outerDelays := retry_delay :: t.outerDelays
              breakerFailures := 1 + t.breakerFailures
              breakerSuccesses := t.breakerSuccesses }
        | 0 =>
            { result := .error e, requests := q.requests, innerWaits := q.waits
              outerDelays := [], breakerFailures := 1, breakerSuccesses := 0 }
      else if nonRetryableByGenerate e then
        { result := .error e, requests := q.requests, innerWaits := q.waits
          outerDelays := [], breakerFailures := 0, breakerSuccesses := 0 }
      else
        { result := .error e, requests := q.requests, innerWaits := q.waits
          outerDelays := [], breakerFailures := 1, breakerSuccesses := 0 }

/-- LLM.generate's retry envelope over a stream of underlying outcomes. -/
def generate (os : List Outcome) : GenTrace :=
  generateAux os MAX_RETRIES INITIAL_RETRY_DELAY

/-- The backoff delays the generate loop would sleep with k retries left and
current delay d: d, then doubling clamped to MAX_RETRY_DELAY. -/
def expectedDelays : Nat → Int → List Int
  | 0, _ => []
  | k + 1, d => d :: expectedDelays k (min (d * 2) MAX_RETRY_DELAY)

/-! ## Theorems -/

/-- Every single lifecycle operation re-establishes the waiting-time
equivalence, whatever the starting state. -/
theorem applyAgentOp_waitingInvariant (st : AgentState) (op : AgentOp) :
    waitingInvariant (applyAgentOp st op) := by
  cases op with
  | enterWaiting lf now =>
      cases lf <;>
        simp [applyAgentOp, AgentState.enter_waiting_state, waitingInvariant]
  | resumeFromWaiting t now =>
      simp [applyAgentOp, AgentState.resume_from_waiting, waitingInvariant]
  | setCompleted fr now =>
      simp [applyAgentOp, AgentState.set_completed, waitingInvariant]
  | setFailed r now =>
      simp [applyAgentOp, AgentState.set_failed, waitingInvariant]
  | requestStop now =>
      simp [applyAgentOp, AgentState.request_stop, waitingInvariant]

/-- Claim C6: every sequence of AgentState lifecycle operations
(enter_waiting_state, resume_from_waiting, set_completed, set_failed,
request_stop) preserves the equivalence waiting_start_time ≠ null iff
status ∈ {waiting_for_message, waiting_for_recovery}; every transition to a
terminal status clears waiting_start_time; and resume_from_waiting resets
consecutive_empty_responses to 0. -/
theorem agent_waiting_time_invariant :
    (∀ (st : AgentState) (ops : List AgentOp),
        waitingInvariant st → waitingInvariant (applyAgentOps st ops)) ∧
    (∀ (st : AgentState) (fr : Option JVal) (now : Int),
        (st.set_completed fr now).waiting_start_time = none) ∧
    (∀ (st : AgentState) (r : String) (now : Int),
        (st.set_failed r now).waiting_start_time = none) ∧
    (∀ (st : AgentState) (now : Int),
        (st.request_stop now).waiting_start_time = none) ∧
    (∀ (st : AgentState) (t : Option String) (now : Int),
        (st.resume_from_waiting t now).consecutive_empty_responses = 0) := by
  refine ⟨?_, fun _ _ _ => rfl, fun _ _ _ => rfl, fun _ _ => rfl, fun _ _ _ => rfl⟩
  intro st ops h
  induction ops generalizing st with
  | nil => exact h
  | cons op rest ih =>
      have h1 := applyAgentOp_waitingInvariant st op
      simpa [applyAgentOps] using ih (applyAgentOp st op) h1

/-- Witness for C6: a concrete run through a waiting and a terminal
transition keeps the equivalence. -/
theorem agent_waiting_time_invariant_witness :
    waitingInvariant
      (applyAgentOps {}
        [AgentOp.enterWaiting true 5, AgentOp.resumeFromWaiting none 6,
         AgentOp.enterWaiting false 7, AgentOp.setFailed "wait_timeout" 8]) :=
  agent_waiting_time_invariant.1 {} _ (by decide)

/-- Claim C10: get_parallelization_strategy splits any list of tool names
into the sequential bucket (exactly the names whose registered module, or
the name itself, is terminal/browser/file_edit) and the parallel bucket
(everything else, including unregistered names), preserving order and
multiplicity. -/
theorem parallelization_strategy_partition :
    ∀ (tools : List RegTool) (names : List String),
      (get_parallelization_strategy tools names).sequential =
        names.filter (fun n => isSequentialName tools n) ∧
      (get_parallelization_strategy tools names).parallel =
        names.filter (fun n => !(isSequentialName tools n)) ∧
      ((get_parallelization_strategy tools names).sequential ++
        (get_parallelization_strategy tools names).parallel).Perm names := by
  intro tools names
  have hs : ∀ ns : List String,
      (get_parallelization_strategy tools ns).sequential =
        ns.filter (fun n => isSequentialName tools n) ∧
      (get_parallelization_strategy tools ns).parallel =
        ns.filter (fun n => !(isSequentialName tools n)) := by
    intro ns
    induction ns with
    | nil => exact ⟨rfl, rfl⟩
    | cons n rest ih =>
        by_cases h : isSequentialName tools n = true
        · simp [get_parallelization_strategy, h, List.filter_cons, ih.1, ih.2]
        · simp only [Bool.not_eq_true] at h
          simp [get_parallelization_strategy, h, List.filter_cons, ih.1, ih.2]
  refine ⟨(hs names).1, (hs names).2, ?_⟩
  rw [(hs names).1, (hs names).2]
  exact List.filter_append_perm _ names

/-- Claim C8: a request to /execute or /register_agent whose bearer token
does not match the per-run secret (or whose scheme is not Bearer) gets a
401 and dispatches nothing (the server state is untouched); a request with
the matching token is processed (worker ensured, request enqueued). -/
theorem tool_server_bearer_auth :
    ∀ (expected : String) (cred : Credentials) (req : ToolExecutionRequest)
      (agent_id : String) (st : ToolServerState),
      (¬(cred.scheme = "Bearer" ∧ cred.credentials = expected) →
        (∃ e, execute_tool expected cred req st = (Except.error e, st) ∧
          e.status_code = 401) ∧
        (∃ e, register_agent expected cred agent_id st = (Except.error e, st) ∧
          e.status_code = 401)) ∧
      (cred.scheme = "Bearer" → cred.credentials = expected →
        execute_tool expected cred req st =
          (Except.ok (), enqueueRequest (ensure_agent_process st req.agent_id) req) ∧
        register_agent expected cred agent_id st =
          (Except.ok ("registered", agent_id), ensure_agent_process st agent_id)) := by
  intro expected cred req agent_id st
  constructor
  · intro h
    by_cases hs : cred.scheme = "Bearer"
    · have ht : ¬(cred.credentials = expected) := fun hc => h ⟨hs, hc⟩
      refine ⟨⟨{ status_code := 401, detail := "Invalid authentication token" }, ?_, rfl⟩,
        ⟨{ status_code := 401, detail := "Invalid authentication token" }, ?_, rfl⟩⟩ <;>
        simp [execute_tool, register_agent, verify_token, hs, ht]
    · refine ⟨⟨{ status_code := 401
                 detail := "Invalid authentication scheme. Bearer token required." }, ?_, rfl⟩,
        ⟨{ status_code := 401
           detail := "Invalid authentication scheme. Bearer token required." }, ?_, rfl⟩⟩ <;>
        simp [execute_tool, register_agent, verify_token, hs]
  · intro hs ht
    constructor <;> simp [execute_tool, register_agent, verify_token, hs, ht]

/-- Witness for C8: with secret "secret", a wrong token gets a 401 and
leaves the (empty) server state unchanged; the right token enqueues the
request for the agent's worker. -/
theorem tool_server_bearer_auth_witness :
    (∃ e, execute_tool "secret" { scheme := "Bearer", credentials := "wrong" }
        { agent_id := "a1", tool_name := "terminal_execute", kwargs := [] }
        { agents := [] } =
      (Except.error e, ({ agents := [] } : ToolServerState)) ∧ e.status_code = 401) ∧
    execute_tool "secret" { scheme := "Bearer", credentials := "secret" }
        { agent_id := "a1", tool_name := "terminal_execute", kwargs := [] }
        { agents := [] } =
      (Except.ok (), enqueueRequest (ensure_agent_process { agents := [] } "a1")
        { agent_id := "a1", tool_name := "terminal_execute", kwargs := [] }) :=
  ⟨((tool_server_bearer_auth "secret" { scheme := "Bearer", credentials := "wrong" }
      { agent_id := "a1", tool_name := "terminal_execute", kwargs := [] } "a1"
      { agents := [] }).1 (by decide)).1,
   ((tool_server_bearer_auth "secret" { scheme := "Bearer", credentials := "secret" }
      { agent_id := "a1", tool_name := "terminal_execute", kwargs := [] } "a1"
      { agents := [] }).2 rfl rfl).1⟩

/-- In the half-open state, iterated raise_if_open admits at most the
remaining probe budget. -/
theorem admitProbes_bound (n : Nat) :
    ∀ (cb : CircuitBreaker) (now : Int), cb.state = CircuitState.half_open →
      (admitProbes cb now n).1 ≤ cb.half_open_max_calls - cb.half_open_calls := by
  induction n with
  | zero => intro cb now _; simp [admitProbes]
  | succ n ih =>
      intro cb now h
      by_cases hlt : cb.half_open_calls < cb.half_open_max_calls
      · have hr : cb.raise_if_open now =
            (true, { cb with half_open_calls := cb.half_open_calls + 1 }) := by
          simp [CircuitBreaker.raise_if_open, CircuitBreaker.can_execute,
            CircuitBreaker.stateProp, h, hlt]
        have hrec := ih { cb with half_open_calls := cb.half_open_calls + 1 } now (by simpa using h)
        simp only [CircuitBreaker.half_open_max_calls, CircuitBreaker.half_open_calls] at hrec
        simp [admitProbes, hr]
        omega
      · have hr : cb.raise_if_open now = (false, cb) := by
          simp [CircuitBreaker.raise_if_open, CircuitBreaker.can_execute,
            CircuitBreaker.stateProp, h, hlt]
        have hrec := ih cb now h
        simp [admitProbes, hr]
        omega

/-- Claim C4: the circuit breaker moves closed → open exactly when the
consecutive failure count reaches failure_threshold; an open breaker is
observed half-open precisely once recovery_timeout has elapsed since the
last failure; a half-open breaker closes on the first recorded success and
reopens on the first recorded failure; and at most half_open_max_calls
probes are admitted while half-open. -/
theorem circuit_breaker_state_machine :
    ∀ (cb : CircuitBreaker) (now : Int),
      (cb.state = CircuitState.closed →
        ((cb.record_failure now).state = CircuitState.opened ↔
          cb.failure_threshold ≤ cb.failure_count + 1)) ∧
      (∀ tf : Int, cb.state = CircuitState.opened → cb.last_failure_time = some tf →
        ((cb.stateProp now).1 = CircuitState.half_open ↔ cb.recovery_timeout ≤ now - tf)) ∧
      (cb.state = CircuitState.half_open →
        (cb.record_success).state = CircuitState.closed ∧
        (cb.record_failure now).state = CircuitState.opened) ∧
      (∀ n : Nat, cb.state = CircuitState.half_open → cb.half_open_calls = 0 →
        (admitProbes cb now n).1 ≤ cb.half_open_max_calls) := by
  intro cb now
  refine ⟨?_, ?_, ?_, ?_⟩
  · intro h
    by_cases ht : cb.failure_threshold ≤ cb.failure_count + 1
    · have : cb.failure_count + 1 ≥ cb.failure_threshold := ht
      simp [CircuitBreaker.record_failure, h, this, ht]
    · have : ¬(cb.failure_count + 1 ≥ cb.failure_threshold) := ht
      simp [CircuitBreaker.record_failure, h, this, ht]
  · intro tf hopen hlast
    by_cases hrec : cb.recovery_timeout ≤ now - tf
    · simp [CircuitBreaker.stateProp, CircuitBreaker.should_attempt_recovery, hopen,
        hlast, hrec]
    · simp [CircuitBreaker.stateProp, CircuitBreaker.should_attempt_recovery, hopen,
        hlast, hrec]
  · intro h
    constructor
    · simp [CircuitBreaker.record_success, h]
    · simp [CircuitBreaker.record_failure, h]
  · intro n h h0
    have := admitProbes_bound n cb now h
    omega

/-- Witness for C4: with the default configuration (threshold 5, recovery
timeout 60 s, one half-open probe), the fifth consecutive failure opens the
breaker, 60 s later the state property reads half-open, a half-open success
closes it, and three probe attempts admit at most one call. -/
theorem circuit_breaker_state_machine_witness :
    ((({ state := .closed, failure_count := 4 } : CircuitBreaker).record_failure 0).state
        = CircuitState.opened) ∧
    ((({ state := .opened, last_failure_time := some 0 } : CircuitBreaker).stateProp 60).1
        = CircuitState.half_open) ∧
    ((({ state := .half_open } : CircuitBreaker).record_success).state
        = CircuitState.closed) ∧
    (admitProbes { state := .half_open } 0 3).1 ≤ 1 :=
  ⟨((circuit_breaker_state_machine { state := .closed, failure_count := 4 } 0).1
      rfl).mpr (by decide),
   ((circuit_breaker_state_machine { state := .opened, last_failure_time := some 0 }
      60).2.1 0 rfl rfl).mpr (by decide),
   ((circuit_breaker_state_machine { state := .half_open } 0).2.2.1 rfl).1,
   (circuit_breaker_state_machine { state := .half_open } 0).2.2.2 3 rfl rfl⟩

/-- Counterexample for C2: start_task checks no dependencies.  Add task_1
(pending) and task_2 depending on it, then call start_task on task_2: it
becomes in_progress while task_1 is still pending, so the claimed invariant
— every in_progress task has all dependencies completed or skipped — is
violated in a state reachable through the public plan operations. -/
theorem plan_start_task_cex :
    let p := ((({} : RunPlan).add_task "Task A" "" none [] none "t0").add_task
        "Task B" "" none ["task_1"] none "t0").start_task "task_2" none "t1"
    ((p.get_task "task_2").map PlanTask.status = some TaskStatus.in_progress) ∧
    ((p.get_task "task_1").map PlanTask.status = some TaskStatus.pending) ∧
    ¬ planDependencyInvariant p := by
  refine ⟨by decide, by decide, ?_⟩
  unfold planDependencyInvariant
  decide

/-- updateFirstTask commutes with lookup by the same id when the update
preserves task_id. -/
theorem find?_updateFirstTask (f : PlanTask → PlanTask) (task_id : String)
    (hf : ∀ t, (f t).task_id = t.task_id) :
    ∀ ts : List PlanTask,
      (updateFirstTask f task_id ts).find? (fun t => t.task_id == task_id) =
        (ts.find? (fun t => t.task_id == task_id)).map f := by
  intro ts
  induction ts with
  | nil => rfl
  | cons t rest ih =>
      by_cases h : t.task_id == task_id
      · simp [updateFirstTask, h, List.find?_cons, hf t]
      · simp [updateFirstTask, h, List.find?_cons, ih]

/-- start_task only rewrites the task list through updateFirstTask (the rest
of the operation touches phases and bookkeeping fields). -/
theorem start_task_tasks (plan : RunPlan) (task_id : String) (task : PlanTask)
    (iter : Option Nat) (now : String) (h : plan.get_task task_id = some task) :
    (plan.start_task task_id iter now).tasks =
      updateFirstTask (fun t => { t with status := .in_progress, started_at := some now, iteration_started := iter }) task_id plan.tasks := by
  simp only [RunPlan.start_task, h]
  split
  · rfl
  · split
    · split <;> rfl
    · rfl

/-- Claim C2 (amended): get_next_task only returns a pending task all of
whose dependencies are completed (a skipped dependency does not satisfy it),
while start_task unconditionally marks the named task in_progress without
any dependency check — so the dependency invariant is not enforced on
transitions. -/
theorem plan_task_dependency_behavior :
    (∀ (plan : RunPlan) (t : PlanTask), plan.get_next_task = some t →
        t.status = TaskStatus.pending ∧ ∀ dep ∈ t.depends_on, dep ∈ completedIds plan) ∧
    (∀ (plan : RunPlan) (task_id : String) (task : PlanTask) (iter : Option Nat)
        (now : String), plan.get_task task_id = some task →
        (plan.start_task task_id iter now).get_task task_id =
          some { task with status := .in_progress, started_at := some now, iteration_started := iter }) := by
  constructor
  · intro plan t h
    have hp := List.find?_some h
    simp only [Bool.and_eq_true, decide_eq_true_eq, List.all_eq_true] at hp
    refine ⟨hp.1, fun dep hdep => ?_⟩
    have := hp.2 dep hdep
    simpa using this
  · intro plan task_id task iter now h
    have h2 := h
    unfold RunPlan.get_task at h2 ⊢
    rw [start_task_tasks plan task_id task iter now h,
      find?_updateFirstTask
        (fun t => { t with status := .in_progress, started_at := some now, iteration_started := iter })
        task_id (fun t => rfl), h2]
    rfl

/-- Witness for C2 (amended): with one freshly added dependency-free task,
get_next_task returns it with its (empty) dependency set completed, and
start_task marks it in_progress. -/
theorem plan_task_dependency_behavior_witness :
    ((PlanTask.status { task_id := "task_1", title := "recon", created_at := "t0" }
        = TaskStatus.pending) ∧
      ∀ dep ∈ PlanTask.depends_on { task_id := "task_1", title := "recon", created_at := "t0" },
        dep ∈ completedIds (({} : RunPlan).add_task "recon" "" none [] none "t0")) ∧
    ((({} : RunPlan).add_task "recon" "" none [] none "t0").start_task "task_1"
        (some 1) "t1").get_task "task_1" =
      some { task_id := "task_1", title := "recon", created_at := "t0", status := .in_progress, started_at := some "t1", iteration_started := some 1 } :=
  ⟨plan_task_dependency_behavior.1 (({} : RunPlan).add_task "recon" "" none [] none "t0")
      { task_id := "task_1", title := "recon", created_at := "t0" } rfl,
   plan_task_dependency_behavior.2 (({} : RunPlan).add_task "recon" "" none [] none "t0")
      "task_1" { task_id := "task_1", title := "recon", created_at := "t0" }
      (some 1) "t1" rfl⟩

/-- Counterexample for C7: a state whose last six messages contain four
assistant messages, three of them with the identical prefix "A" and one
with "B".  The claim's premise — three or more assistant messages with
identical first-100-character prefixes in the last six messages — holds,
yet check_for_issues reports nothing: the code only fires when ALL
assistant messages in the window share one prefix
(len(set(contents)) == 1). -/
theorem reconciler_loop_cex :
    let st : AgentState := { messages :=
      [{ role := "assistant", content := "A" }, { role := "assistant", content := "A" },
       { role := "assistant", content := "A" }, { role := "assistant", content := "B" },
       { role := "user", content := "x" }, { role := "user", content := "y" }] }
    (((assistantWindow st).filter (fun m => strTake m.content 100 == "A")).length = 3) ∧
    hasLoopIssue st 0 = false ∧
    check_for_issues st 0 = [] :=
  ⟨by decide, by decide, rfl⟩

/-- The inconsistency check never produces a loop_detected issue. -/
theorem issuesInconsistency_no_loop (st : AgentState) :
    (issuesInconsistency st).any
      (fun i => i.issue_type = ReconciliationIssueType.loop_detected) = false := by
  unfold issuesInconsistency; split <;> simp

/-- The iteration check never produces a loop_detected issue. -/
theorem issuesIteration_no_loop (st : AgentState) :
    (issuesIteration st).any
      (fun i => i.issue_type = ReconciliationIssueType.loop_detected) = false := by
  unfold issuesIteration; split <;> simp

/-- The rate-limit check never produces a loop_detected issue. -/
theorem issuesRateLimit_no_loop (st : AgentState) :
    (issuesRateLimit st).any
      (fun i => i.issue_type = ReconciliationIssueType.loop_detected) = false := by
  unfold issuesRateLimit; split <;> simp

/-- The stale-wait check never produces a loop_detected issue. -/
theorem issuesStale_no_loop (st : AgentState) (now : Int) :
    (issuesStale st now).any
      (fun i => i.issue_type = ReconciliationIssueType.loop_detected) = false := by
  unfold issuesStale
  split
  · split
    · split <;> simp
    · simp
  · simp

/-- The loop check fires exactly on its three conditions. -/
theorem issuesLoop_any (st : AgentState) :
    (issuesLoop st).any
      (fun i => i.issue_type = ReconciliationIssueType.loop_detected) =
      (decide (6 ≤ st.messages.length) && (decide (3 ≤ (assistantWindow st).length) &&
        ((assistantContents st).eraseDups.length == 1))) := by
  unfold issuesLoop
  split_ifs <;> simp_all

/-- Claim C7 (amended): check_for_issues reports loop_detected exactly when
the state has at least six messages, the last six contain at least three
assistant messages, and all assistant messages in that window share one
first-100-character prefix; the reported issue is not auto-fixable and has
severity critical. -/
theorem reconciler_loop_characterization :
    ∀ (st : AgentState) (now : Int),
      (hasLoopIssue st now = true ↔
        (6 ≤ st.messages.length ∧ 3 ≤ (assistantWindow st).length ∧
          (assistantContents st).eraseDups.length = 1)) ∧
      (∀ i ∈ check_for_issues st now,
        i.issue_type = ReconciliationIssueType.loop_detected →
          i.auto_fixable = false ∧ i.severity = "critical") := by
  intro st now
  constructor
  · unfold hasLoopIssue check_for_issues
    rw [List.any_append, List.any_append, List.any_append, List.any_append,
      issuesInconsistency_no_loop, issuesIteration_no_loop, issuesRateLimit_no_loop,
      issuesStale_no_loop, issuesLoop_any]
    simp
  · intro i hi hloop
    unfold check_for_issues at hi
    simp only [List.mem_append] at hi
    rcases hi with ((((h | h) | h) | h) | h)
    · unfold issuesInconsistency at h
      split at h <;> simp at h
      subst h; cases hloop
    · unfold issuesIteration at h
      split at h <;> simp at h
      subst h; cases hloop
    · unfold issuesRateLimit at h
      split at h <;> simp at h
      subst h; cases hloop
    · unfold issuesLoop at h
      split at h
      · split at h
        · split at h <;> simp at h
          subst h; exact ⟨rfl, rfl⟩
        · simp at h
      · simp at h
    · unfold issuesStale at h
      split at h
      · split at h
        · split at h <;> simp at h
          subst h; cases hloop
        · simp at h
      · simp at h

/-- Witness for C7 (amended): six identical assistant messages trigger the
loop_detected issue. -/
theorem reconciler_loop_characterization_witness :
    hasLoopIssue
      { messages := List.replicate 6 { role := "assistant", content := "Repeat" } } 0 = true :=
  (reconciler_loop_characterization
    { messages := List.replicate 6 { role := "assistant", content := "Repeat" } } 0).1.mpr
    (by decide)

/-- dictInsert never produces an empty dict. -/
theorem dictInsert_ne_nil {α : Type} (m : List (String × α)) (k : String) (v : α) :
    dictInsert m k v ≠ [] := by
  unfold dictInsert
  split
  · intro hmap
    rename_i h
    rw [List.map_eq_nil_iff] at hmap
    subst hmap
    simp at h
  · simp

/-- find? skips a first block that contains no match. -/
theorem find?_append_right {α : Type} (p : α → Bool) (l1 l2 : List α)
    (h : l1.find? p = none) : (l1 ++ l2).find? p = l2.find? p := by
  induction l1 with
  | nil => rfl
  | cons a t ih =>
      by_cases hp : p a
      · rw [List.find?_cons_of_pos _ hp] at h
        cases h
      · rw [List.find?_cons_of_neg _ hp] at h
        rw [List.cons_append, List.find?_cons_of_neg _ hp]
        exact ih h

/-- Looking up the key just inserted returns the inserted value. -/
theorem dictGet_dictInsert {α : Type} (m : List (String × α)) (k : String) (v : α) :
    dictGet (dictInsert m k v) k = some v := by
  unfold dictGet dictInsert
  split
  · rename_i h
    have hfind : ∀ m' : List (String × α), m'.any (fun p => p.1 == k) = true →
        (m'.map (fun p => if p.1 == k then (k, v) else p)).find? (fun p => p.1 == k) =
          some (k, v) := by
      intro m' hm
      induction m' with
      | nil => simp at hm
      | cons p t ih =>
          simp only [List.map_cons]
          by_cases hp : (p.1 == k) = true
          · rw [if_pos hp]
            exact List.find?_cons_of_pos _ (by simp)
          · rw [if_neg hp]
            have hp2 : (p.1 == k) = false := by
              cases hb : (p.1 == k) with
              | true => exact absurd hb hp
              | false => rfl
            have ht : t.any (fun p => p.1 == k) = true := by
              rcases List.any_eq_true.mp hm with ⟨a, ha, hpa⟩
              cases ha with
              | head => exact absurd hpa hp
              | tail _ hta => exact List.any_eq_true.mpr ⟨a, hta, hpa⟩
            rw [show (List.find? (fun q => q.1 == k) (p :: List.map (fun q => if (q.1 == k) = true then (k, v) else q) t)) = List.find? (fun q => q.1 == k) (List.map (fun q => if (q.1 == k) = true then (k, v) else q) t) from by simp [List.find?_cons, hp2]]
            exact ih ht
    rw [hfind m h]
    rfl
  · rename_i h
    have hnone : m.find? (fun p => p.1 == k) = none := by
      rw [List.find?_eq_none]
      intro a ha hpa
      exact h (List.any_eq_true.mpr ⟨a, ha, hpa⟩)
    rw [find?_append_right _ _ _ hnone]
    simp

/-- What save_progress (without append, valid inputs) does to the cache. -/
theorem save_progress_cache (st : ProgressState) (key : String)
    (fields : List (String × JVal)) (now : String) (hk : ¬(strStrip key = "")) :
    ((save_progress st key (JVal.obj fields) false now).2).cache =
      dictInsert (if st.cache.isEmpty then load_progress_from_disk st else st).cache
        (strStrip key) { data := JVal.obj fields, created_at := now, updated_at := now } ∧
    (save_progress st key (JVal.obj fields) false now).1.success = true := by
  unfold save_progress save_progress_to_disk
  rw [if_neg hk]
  simp only [JVal.isObj, Bool.not_true, Bool.false_and, Bool.false_eq_true, if_false]
  split <;> split <;> exact ⟨rfl, trivial⟩


/-- Counterexample for C9: the key " " is non-empty, yet save_progress
rejects it ("Key cannot be empty": the code tests key.strip()), and the
subsequent load_progress fails too — so the claimed round trip does not
hold for every non-empty key. -/
theorem progress_blank_key_cex :
    ((save_progress {} " " (JVal.obj []) false "t0").1.success = false) ∧
    ((save_progress {} " " (JVal.obj []) false "t0").1.error = some "Key cannot be empty") ∧
    ((load_progress (save_progress {} " " (JVal.obj []) false "t0").2 " ").1.success = false) ∧
    (" " : String) ≠ "" :=
  ⟨rfl, rfl, rfl, by decide⟩

/-- Claim C9 (amended): for every key with non-whitespace content and every
dictionary value, save_progress (without append) succeeds and a following
load_progress returns exactly the saved dictionary as the data field,
together with the added created_at/updated_at timestamps. -/
theorem progress_save_load_roundtrip :
    ∀ (st : ProgressState) (key : String) (fields : List (String × JVal)) (now : String),
      strStrip key ≠ "" →
      ((save_progress st key (JVal.obj fields) false now).1.success = true) ∧
      ((load_progress (save_progress st key (JVal.obj fields) false now).2 key).1.success
        = true) ∧
      ((load_progress (save_progress st key (JVal.obj fields) false now).2 key).1.data
        = some (JVal.obj fields)) ∧
      ((load_progress (save_progress st key (JVal.obj fields) false now).2 key).1.created_at
        = some now) ∧
      ((load_progress (save_progress st key (JVal.obj fields) false now).2 key).1.updated_at
        = some now) := by
  intro st key fields now hk
  have hc := save_progress_cache st key fields now hk
  refine ⟨hc.2, ?_⟩
  have hne : ((save_progress st key (JVal.obj fields) false now).2).cache ≠ [] := by
    rw [hc.1]; exact dictInsert_ne_nil _ _ _
  have hempty : ((save_progress st key (JVal.obj fields) false now).2).cache.isEmpty = false := by
    cases hcm : ((save_progress st key (JVal.obj fields) false now).2).cache with
    | nil => exact absurd hcm hne
    | cons a t => rfl
  have hget : dictGet ((save_progress st key (JVal.obj fields) false now).2).cache
      (strStrip key) = some { data := JVal.obj fields, created_at := now, updated_at := now } := by
    rw [hc.1]; exact dictGet_dictInsert _ _ _
  unfold load_progress
  rw [if_neg hk]
  simp [hempty, hget]

/-- Witness for C9 (amended): a concrete save/load round trip. -/
theorem progress_save_load_roundtrip_witness :
    (load_progress
      (save_progress {} "recon" (JVal.obj [("ports", JVal.arr [JVal.num 80])]) false "t0").2
      "recon").1.data = some (JVal.obj [("ports", JVal.arr [JVal.num 80])]) :=
  (progress_save_load_roundtrip {} "recon" [("ports", JVal.arr [JVal.num 80])] "t0"
    (by decide)).2.2.1

/-- Counterexample for C5: after a successful emit the persisted line has
exactly the fields event_type, timestamp, agent_id and data — there is no
event_id field — and the on-disk log equals the serialized in-memory log,
so it is not a STRICT prefix of it. -/
theorem tracer_emit_cex :
    let e : TracerEvent := { event_type := .scan_start, timestamp := "t0" }
    let st := emit_event {} e true
    ((st.diskLines.headD []).map Prod.fst = ["event_type", "timestamp", "agent_id", "data"]) ∧
    ("event_id" ∉ (st.diskLines.headD []).map Prod.fst) ∧
    st.diskLines = st.events.map TracerEvent.to_dict ∧
    st.diskLines.length = st.events.length :=
  ⟨rfl, by decide, rfl, rfl⟩

/-- Claim C5 (amended): the on-disk event log is always an in-order sublist
of the serialized in-memory log (each append is attempted before emit
returns, and a failed append is swallowed, skipping just that line); when
every append succeeds the two are equal; and every persisted line carries
exactly the fields event_type, timestamp, agent_id and data. -/
theorem tracer_emit_persistence :
    ∀ (es : List (TracerEvent × Bool)) (st : TracerEmitState),
      (List.Sublist st.diskLines (st.events.map TracerEvent.to_dict) →
        List.Sublist (emitAll st es).diskLines
          ((emitAll st es).events.map TracerEvent.to_dict)) ∧
      (st.diskLines = st.events.map TracerEvent.to_dict → (∀ p ∈ es, p.2 = true) →
        (emitAll st es).diskLines = (emitAll st es).events.map TracerEvent.to_dict) ∧
      ((∀ l ∈ st.diskLines, l.map Prod.fst = ["event_type", "timestamp", "agent_id", "data"]) →
        ∀ l ∈ (emitAll st es).diskLines,
          l.map Prod.fst = ["event_type", "timestamp", "agent_id", "data"]) := by
  intro es
  induction es with
  | nil => intro st; exact ⟨id, fun h _ => h, fun h => h⟩
  | cons p rest ih =>
      intro st
      obtain ⟨e, ok⟩ := p
      have hstep : emitAll st ((e, ok) :: rest) = emitAll (emit_event st e ok) rest := rfl
      rw [hstep]
      refine ⟨?_, ?_, ?_⟩
      · intro hsub
        have h1 : List.Sublist (emit_event st e ok).diskLines
            ((emit_event st e ok).events.map TracerEvent.to_dict) := by
          cases ok
          · simp only [emit_event, Bool.false_eq_true, if_false, List.map_append]
            exact hsub.trans (List.sublist_append_left _ _)
          · simp only [emit_event, if_true, List.map_append]
            exact hsub.append (List.Sublist.refl _)
        exact (ih (emit_event st e ok)).1 h1
      · intro heq hall
        have hok : ok = true := hall (e, ok) (by simp)
        subst hok
        have h1 : (emit_event st e true).diskLines =
            (emit_event st e true).events.map TracerEvent.to_dict := by
          simp [emit_event, heq]
        exact (ih (emit_event st e true)).2.1 h1 (fun q hq => hall q (by simp [hq]))
      · intro hkeys
        have h1 : ∀ l ∈ (emit_event st e ok).diskLines,
            l.map Prod.fst = ["event_type", "timestamp", "agent_id", "data"] := by
          cases ok
          · simpa [emit_event] using hkeys
          · intro l hl
            simp only [emit_event, if_true, List.mem_append, List.mem_singleton] at hl
            rcases hl with hl | hl
            · exact hkeys l hl
            · subst hl; rfl
        exact (ih (emit_event st e ok)).2.2 h1

/-- Witness for C5 (amended): one successfully persisted event gives a disk
log equal to the serialized in-memory log. -/
theorem tracer_emit_persistence_witness :
    (emitAll {} [({ event_type := .scan_start, timestamp := "t0" }, true)]).diskLines =
      (emitAll {} [({ event_type := .scan_start, timestamp := "t0" }, true)]).events.map
        TracerEvent.to_dict :=
  (tracer_emit_persistence [({ event_type := .scan_start, timestamp := "t0" }, true)] {}).2.1
    rfl (fun p hp => by rw [List.mem_singleton] at hp; subst hp; rfl)

/-- The key just inserted is present. -/
theorem dictHasKey_dictInsert_self {α : Type} (m : List (String × α)) (k : String) (v : α) :
    dictHasKey (dictInsert m k v) k = true := by
  unfold dictHasKey dictInsert
  split
  · rename_i h
    rcases List.any_eq_true.mp h with ⟨a, ha, hpa⟩
    apply List.any_eq_true.mpr
    refine ⟨if a.1 == k then (k, v) else a, List.mem_map_of_mem _ ha, ?_⟩
    simp [hpa]
  · apply List.any_eq_true.mpr
    exact ⟨(k, v), by simp, by simp⟩

/-- dictInsert never removes keys. -/
theorem dictHasKey_dictInsert_mono {α : Type} (m : List (String × α)) (j k : String)
    (v : α) (h : dictHasKey m k = true) : dictHasKey (dictInsert m j v) k = true := by
  unfold dictHasKey dictInsert
  unfold dictHasKey at h
  split
  · rcases List.any_eq_true.mp h with ⟨a, ha, hpa⟩
    apply List.any_eq_true.mpr
    refine ⟨if a.1 == j then (j, v) else a, List.mem_map_of_mem _ ha, ?_⟩
    by_cases haj : (a.1 == j) = true
    · have h1 : a.1 = j := eq_of_beq haj
      have h2 : a.1 = k := eq_of_beq (by simpa using hpa)
      simp [haj, ← h1, h2]
    · simp [haj, hpa]
  · apply List.any_eq_true.mpr
    rcases List.any_eq_true.mp h with ⟨a, ha, hpa⟩
    exact ⟨a, List.mem_append_left _ ha, hpa⟩

/-- Counterexample for C1: a successful create_vulnerability_report call on
a fresh tracer emits NO event to the event stream (the code only invokes an
optional UI callback), and performs exactly two plain file operations — a
direct markdown write and a CSV append — neither of which is a
temp-write/fsync/rename. -/
theorem report_create_cex :
    let r := create_vulnerability_report {} "SQL Injection" "Details of the issue" "high"
      "2024-01-01 00:00:00 UTC"
    r.1.success = true ∧
    r.2.events = [] ∧
    (∀ op ∈ r.2.ops, op.isAtomic = false) ∧
    r.2.ops.length = 2 :=
  ⟨rfl, rfl, by decide, rfl⟩

/-- Claim C1 (amended): a successful create_vulnerability_report assigns the
zero-padded sequential id vuln-<n+1>, appends the report without modifying
any existing report, emits nothing to the tracer event stream, and before
returning writes the markdown artifact with a plain write and appends one
row to vulnerabilities.csv (header first for a new file) — plain file
operations, not atomic temp/fsync/rename — leaving both files present. -/
theorem report_create_behavior :
    ∀ (st : ReportingState) (title content severity now : String),
      strStrip title ≠ "" → strStrip content ≠ "" → strStrip severity ≠ "" →
      validSeverities.contains (strToLower severity) = true →
      (create_vulnerability_report st title content severity now).1.success = true ∧
      (create_vulnerability_report st title content severity now).1.report_id =
        some ("vuln-" ++ padZeros4 (st.vulnerability_reports.length + 1)) ∧
      (create_vulnerability_report st title content severity now).2.vulnerability_reports =
        st.vulnerability_reports ++
          [{ id := "vuln-" ++ padZeros4 (st.vulnerability_reports.length + 1), title := strStrip title, content := strStrip content, severity := strStrip (strToLower severity), timestamp := now }] ∧
      (create_vulnerability_report st title content severity now).2.events = st.events ∧
      (∃ chunk : String,
        (create_vulnerability_report st title content severity now).2.ops = st.ops ++
          [FsOp.writeFileW
            ("vulnerabilities/" ++ ("vuln-" ++ padZeros4 (st.vulnerability_reports.length + 1)) ++ ".md")
            (vulnMarkdown ("vuln-" ++ padZeros4 (st.vulnerability_reports.length + 1))
              (strStrip title) (strStrip content) (strStrip (strToLower severity)) now),
           FsOp.appendFileA "vulnerabilities.csv" chunk] ∧
        (∃ pre : String, chunk = pre ++
          csvRow ["vuln-" ++ padZeros4 (st.vulnerability_reports.length + 1), strStrip title,
            String.mk ((strStrip (strToLower severity)).data.map Char.toUpper), now,
            "vulnerabilities/" ++ ("vuln-" ++ padZeros4 (st.vulnerability_reports.length + 1)) ++ ".md"]) ∧
        dictHasKey (create_vulnerability_report st title content severity now).2.files
          ("vulnerabilities/" ++ ("vuln-" ++ padZeros4 (st.vulnerability_reports.length + 1)) ++ ".md") = true ∧
        dictHasKey (create_vulnerability_report st title content severity now).2.files
          "vulnerabilities.csv" = true) := by
  intro st title content severity now ht hc hs hv
  unfold create_vulnerability_report
  rw [if_neg ht, if_neg hc, if_neg hs, hv]
  simp only [Bool.not_true, Bool.false_eq_true, if_false]
  unfold add_vulnerability_report save_vulnerability_to_disk
  refine ⟨by trivial, by trivial, by trivial, by trivial, ?_⟩
  refine ⟨(if (!dictHasKey
      (dictInsert st.files
        ("vulnerabilities/" ++ ("vuln-" ++ padZeros4 (st.vulnerability_reports.length + 1)) ++ ".md")
        (vulnMarkdown ("vuln-" ++ padZeros4 (st.vulnerability_reports.length + 1))
          (strStrip title) (strStrip content) (strStrip (strToLower severity)) now))
      "vulnerabilities.csv") = true then csvHeader else "") ++
      csvRow ["vuln-" ++ padZeros4 (st.vulnerability_reports.length + 1), strStrip title,
        String.mk ((strStrip (strToLower severity)).data.map Char.toUpper), now,
        "vulnerabilities/" ++ ("vuln-" ++ padZeros4 (st.vulnerability_reports.length + 1)) ++ ".md"],
    ?_, ⟨_, rfl⟩, ?_, ?_⟩
  · simp
  · exact dictHasKey_dictInsert_mono _ _ _ _ (dictHasKey_dictInsert_self _ _ _)
  · exact dictHasKey_dictInsert_self _ _ _

/-- Witness for C1 (amended): a concrete successful call. -/
theorem report_create_behavior_witness :
    (create_vulnerability_report {} "XSS in search" "Reflected XSS" "High" "t0").1.report_id =
      some "vuln-0001" :=
  (report_create_behavior {} "XSS in search" "Reflected XSS" "High" "t0"
    (by decide) (by decide) (by decide) (by decide)).2.1

/-- Counterexample for C3: with the thinker failing every call with a
rate-limit error (HTTP 429), the error is surfaced only after 28 underlying
requests (4 generate attempts × 7 tenacity attempts), the first retry of the
failing request waits 12 s (tenacity wait_exponential min), not 2 s, and
only 4 of the 28 failures are fed to the circuit breaker — the 2 s → 16 s
three-retry envelope of the claim describes only the outer layer. -/
theorem llm_retry_cex :
    let t := generate
      (List.replicate 28 (Outcome.err { kind := .rateLimit, status_code := some 429 }))
    t.requests = 28 ∧
    t.breakerFailures = 4 ∧
    t.innerWaits.take 6 = [12, 12, 24, 48, 96, 150] ∧
    t.outerDelays = [2, 4, 8] ∧
    t.result = Except.error { kind := ErrKind.rateLimit, status_code := some 429 } :=
  ⟨by decide, by decide, by decide, by decide, rfl⟩

/-- tenacity wait_exponential(multiplier=6, min=12, max=150) stays in
[12, 150]. -/
theorem tenacityWait_bounds (n : Nat) : 12 ≤ tenacityWait n ∧ tenacityWait n ≤ 150 := by
  unfold tenacityWait
  refine ⟨le_max_left _ _, max_le (by norm_num) (min_le_right _ _)⟩

/-- All waits slept inside one _reliable_request call are tenacity waits. -/
theorem reliableRequestAux_waits (os : List Outcome) :
    ∀ (a : Nat), ∀ w ∈ (reliableRequestAux os a).waits, 12 ≤ w ∧ w ≤ 150 := by
  induction os with
  | nil => intro a w hw; simp [reliableRequestAux] at hw
  | cons o rest ih =>
      intro a w hw
      unfold reliableRequestAux at hw
      cases o with
      | ok => simp at hw
      | err e =>
          dsimp only at hw
          by_cases hcond : should_retry_exception e = true ∧ a < 7
          · rw [if_pos hcond] at hw
            simp only [List.mem_cons] at hw
            rcases hw with rfl | hw
            · exact tenacityWait_bounds a
            · exact ih (a + 1) w hw
          · rw [if_neg hcond] at hw
            simp at hw

/-- One _reliable_request call makes at most 8 - a requests when entered at
attempt number a ∈ [1, 7]. -/
theorem reliableRequestAux_requests (os : List Outcome) :
    ∀ (a : Nat), 1 ≤ a → a ≤ 7 → (reliableRequestAux os a).requests ≤ 8 - a := by
  induction os with
  | nil => intro a h1 h7; simp [reliableRequestAux]
  | cons o rest ih =>
      intro a h1 h7
      unfold reliableRequestAux
      cases o with
      | ok => simp; omega
      | err e =>
          dsimp only
          by_cases hcond : should_retry_exception e = true ∧ a < 7
          · rw [if_pos hcond]
            have := ih (a + 1) (by omega) (by omega)
            simp only []
            omega
          · rw [if_neg hcond]
            simp; omega

/-- The generate retry loop with k retries left and current delay d: its
backoff delays follow expectedDelays, it makes at most (k+1)*7 underlying
requests, feeds at most k+1 failures to the breaker, sleeps one backoff per
recorded failure at most, and every queue-internal wait is in [12, 150]. -/
theorem generateAux_bounds (k : Nat) :
    ∀ (os : List Outcome) (d : Int),
      ((generateAux os k d).outerDelays <+: expectedDelays k d) ∧
      (generateAux os k d).requests ≤ (k + 1) * 7 ∧
      (generateAux os k d).breakerFailures ≤ k + 1 ∧
      (generateAux os k d).outerDelays.length ≤ (generateAux os k d).breakerFailures ∧
      (∀ w ∈ (generateAux os k d).innerWaits, 12 ≤ w ∧ w ≤ 150) := by
  induction k with
  | zero =>
      intro os d
      have hreq : (reliable_request os).requests ≤ 7 :=
        reliableRequestAux_requests os 1 (by omega) (by omega)
      have hw : ∀ w ∈ (reliable_request os).waits, 12 ≤ w ∧ w ≤ 150 :=
        reliableRequestAux_waits os 1
      unfold generateAux
      rcases hr : (reliable_request os).result with e | val
      all_goals simp only [hr]
      · by_cases hretry : retryableByGenerate e = true
        · simp only [hretry, if_true]
          exact ⟨List.nil_prefix, by simpa using hreq, by simp, by simp, hw⟩
        · simp only [hretry]
          by_cases hnon : nonRetryableByGenerate e = true
          · simp only [hnon, Bool.false_eq_true, if_false, if_true]
            exact ⟨List.nil_prefix, by simpa using hreq, by simp, by simp, hw⟩
          · simp only [hnon, Bool.false_eq_true, if_false]
            exact ⟨List.nil_prefix, by simpa using hreq, by simp, by simp, hw⟩
      · exact ⟨List.nil_prefix, by simpa using hreq, by simp, by simp, hw⟩
  | succ k ih =>
      intro os d
      have hreq : (reliable_request os).requests ≤ 7 :=
        reliableRequestAux_requests os 1 (by omega) (by omega)
      have hw : ∀ w ∈ (reliable_request os).waits, 12 ≤ w ∧ w ≤ 150 :=
        reliableRequestAux_waits os 1
      unfold generateAux
      rcases hr : (reliable_request os).result with e | val
      all_goals simp only [hr]
      · by_cases hretry : retryableByGenerate e = true
        · simp only [hretry, if_true]
          have hrec := ih (reliable_request os).rest (min (d * 2) MAX_RETRY_DELAY)
          refine ⟨?_, ?_, ?_, ?_, ?_⟩
          · rcases hrec.1 with ⟨tail, htail⟩
            exact ⟨tail, by simp [expectedDelays, ← htail]⟩
          · have h1 := hrec.2.1
            have h2 := hreq
            omega
          · have h1 := hrec.2.2.1
            omega
          · have h1 := hrec.2.2.2.1
            simp only [List.length_cons]
            omega
          · intro w hwmem
            simp only [List.mem_append] at hwmem
            rcases hwmem with h | h
            · exact hw w h
            · exact hrec.2.2.2.2 w h
        · simp only [hretry]
          by_cases hnon : nonRetryableByGenerate e = true
          · simp only [hnon, Bool.false_eq_true, if_false, if_true]
            exact ⟨List.nil_prefix, by have h2 := hreq; omega, by simp, by simp, hw⟩
          · simp only [hnon, Bool.false_eq_true, if_false]
            exact ⟨List.nil_prefix, by have h2 := hreq; omega, by simp, by simp, hw⟩
      · exact ⟨List.nil_prefix, by have h2 := hreq; omega, by simp, by simp, hw⟩

/-- Claim C3 (amended): each surfaced transient error makes the generate
loop record one breaker failure and retry with backoff 2 s, 4 s, 8 s (the
doubling capped at 16 s is never exceeded in three retries), and every
underlying request is additionally retried inside the request queue with
tenacity waits between 12 s and 150 s that bypass the circuit breaker; in
total at most 28 underlying requests and at most 4 breaker failures occur
before the error reaches the caller. -/
theorem llm_retry_envelope :
    ∀ (os : List Outcome),
      ((generate os).outerDelays <+: [2, 4, 8]) ∧
      (generate os).requests ≤ 28 ∧
      (generate os).breakerFailures ≤ 4 ∧
      (generate os).outerDelays.length ≤ (generate os).breakerFailures ∧
      (∀ w ∈ (generate os).innerWaits, 12 ≤ w ∧ w ≤ 150) := by
  intro os
  have h := generateAux_bounds MAX_RETRIES os INITIAL_RETRY_DELAY
  have he : expectedDelays MAX_RETRIES INITIAL_RETRY_DELAY = [2, 4, 8] := by decide
  exact ⟨he ▸ h.1, h.2.1, h.2.2.1, h.2.2.2.1, h.2.2.2.2⟩

/-- Witness for C3 (amended): a queue-internal wait of a concrete failing
run is within [12, 150]. -/
theorem llm_retry_envelope_witness : (12 : Int) ≤ 12 ∧ (12 : Int) ≤ 150 :=
  (llm_retry_envelope
    (List.replicate 8 (Outcome.err { kind := .rateLimit, status_code := some 429 }))).2.2.2.2
    12 (by decide)

end Strix
